import Mathlib

set_option maxHeartbeats 1000000

/-!
A shallow embedding of the Lisp interpreter (parser.py, env.py).

Python's dynamically typed runtime values (int, Fraction, bool, None, str,
list) are modelled by the inductive type `Value`; Python exceptions by `Err`
(only the exception class matters, messages are dropped).  The mutable
`Environment` objects form a heap (`PState.envs`, indexed by `Nat`); the
`functions` dict is shared by reference between every environment the code
ever creates, so it is modelled as a single global table (`PState.funcs`).
Because the entries of that table are *bound methods* of the environment that
built it, each builtin carries the index of its `self` environment.

Recursion of the evaluator and parser is through a fuel parameter (every
mutual call consumes one unit), which keeps all definitions structurally
recursive and hence evaluable by `rfl`/`decide`.
-/

namespace LispInterp

/-- A Python runtime value: `int`, `Fraction`, `bool`, `None`, `str`
(as a character list) or `list`. -/
inductive Value where
  | int (i : Int)
  | rat (q : Rat)
  | bool (b : Bool)
  | nil
  | str (s : List Char)
  | list (l : List Value)

/-- The Python exception classes raised by the interpreter.  `indexError`
is the untyped `IndexError` from out-of-range indexing, `keyError` the
untyped `KeyError` from a failed dict lookup, `outOfFuel` is the artifact
of the fuel-based embedding (never returned for sufficient fuel). -/
inductive Err where
  | syntaxError
  | nameError
  | typeError
  | overflowError
  | zeroDivisionError
  | valueError
  | indexError
  | keyError
  | outOfFuel
deriving DecidableEq

mutual
/-- Computable structural size of a value (used only to pick a sufficient
fuel bound for the fueled helpers below). -/
def vsize : Value → Nat
  | .list l => 1 + lsize l
  | _ => 1
/-- Computable structural size of a list of values. -/
def lsize : List Value → Nat
  | [] => 0
  | x :: xs => vsize x + lsize xs
end

/-! Rational arithmetic is written out in terms of `Rat.divInt` and the
`num`/`den` fields (instead of the `Rat` arithmetic instances) so that all
definitions evaluate by plain kernel reduction; the results are the usual
normalized rationals. -/

/-- Exact rational addition. -/
def ratAdd (x y : Rat) : Rat :=
  Rat.divInt (x.num * (y.den : Int) + y.num * (x.den : Int)) ((x.den : Int) * (y.den : Int))

/-- Exact rational subtraction. -/
def ratSub (x y : Rat) : Rat :=
  Rat.divInt (x.num * (y.den : Int) - y.num * (x.den : Int)) ((x.den : Int) * (y.den : Int))

/-- Exact rational multiplication. -/
def ratMul (x y : Rat) : Rat :=
  Rat.divInt (x.num * y.num) ((x.den : Int) * (y.den : Int))

/-- Exact rational division (`Fraction(x, y)`); the callers guard `y = 0`. -/
def ratDiv (x y : Rat) : Rat :=
  Rat.divInt (x.num * (y.den : Int)) ((x.den : Int) * y.num)

/-- Exact rational power by a natural exponent. -/
def ratNPow (q : Rat) (n : Nat) : Rat :=
  Rat.divInt (Int.pow q.num n) (Int.pow (q.den : Int) n)

/-- Equality of (normalized) rationals. -/
def ratEqB (x y : Rat) : Bool :=
  x.num == y.num && x.den == y.den

/-- Order on rationals via cross multiplication (denominators are
positive). -/
def ratLtB (x y : Rat) : Bool :=
  x.num * (y.den : Int) < y.num * (x.den : Int)

/-- Numeric view of a value: Python treats `bool` as an `int` subtype and
`int`/`Fraction` as interoperable rationals. -/
def toRat? : Value → Option Rat
  | .int i => some (Rat.ofInt i)
  | .rat q => some q
  | .bool b => some (Rat.ofInt (if b then 1 else 0))
  | _ => none

/-- Python `int`-valued view (`int` or `bool`). -/
def intOf? : Value → Option Int
  | .int i => some i
  | .bool b => some (if b then 1 else 0)
  | _ => none

/-- Python `==`, fueled so that the definition is structurally recursive;
the fuel only bounds the depth of nested lists. -/
def pyEqF : Nat → Value → Value → Bool
  | f, a, b =>
    match toRat? a, toRat? b with
    | some x, some y => ratEqB x y
    | _, _ =>
      match a, b with
      | .nil, .nil => true
      | .str s, .str t => decide (s = t)
      | .list [], .list [] => true
      | .list (x :: xs), .list (y :: ys) =>
        match f with
        | 0 => false
        | f' + 1 => pyEqF f' x y && pyEqF f' (.list xs) (.list ys)
      | _, _ => false

/-- Python `==` on interpreter values (`vsize a + vsize b` fuel always
suffices, since each recursive step consumes at least one unit of it). -/
def pyEq (a b : Value) : Bool := pyEqF (vsize a + vsize b) a b

/-- Lexicographic comparison of Python strings. -/
def charListLt : List Char → List Char → Bool
  | [], [] => false
  | [], _ :: _ => true
  | _ :: _, [] => false
  | c :: cs, d :: ds => if c = d then charListLt cs ds else decide (c < d)

/-- Python `<` (numeric, string and list comparisons; incomparable shapes
raise `TypeError`), fueled like `pyEqF`. -/
def pyLtF : Nat → Value → Value → Except Err Bool
  | f, a, b =>
    match toRat? a, toRat? b with
    | some x, some y => .ok (ratLtB x y)
    | _, _ =>
      match a, b with
      | .str s, .str t => .ok (charListLt s t)
      | .list [], .list [] => .ok false
      | .list [], .list (_ :: _) => .ok true
      | .list (_ :: _), .list [] => .ok false
      | .list (x :: xs), .list (y :: ys) =>
        match f with
        | 0 => .error .typeError
        | f' + 1 =>
          if pyEq x y then pyLtF f' (.list xs) (.list ys) else pyLtF f' x y
      | _, _ => .error .typeError

/-- Python `<` on interpreter values. -/
def pyLt (a b : Value) : Except Err Bool := pyLtF (vsize a + vsize b) a b

/-- Python truthiness. -/
def pyTruthy : Value → Bool
  | .nil => false
  | .bool b => b
  | .int i => decide (i ≠ 0)
  | .rat q => decide (q.num ≠ 0)
  | .str s => !s.isEmpty
  | .list l => !l.isEmpty

/-- Decimal representation of an integer, as Python `str(int)`. -/
def intRepr (i : Int) : List Char := (toString i).toList

/-- Decimal representation of a natural number. -/
def natRepr (n : Nat) : List Char := (toString n).toList

/-- Python `str(Fraction(n, d))`: `"n/d"`, or just `"n"` for integral values. -/
def ratStr (q : Rat) : List Char :=
  if q.den = 1 then intRepr q.num else intRepr q.num ++ '/' :: natRepr q.den

/-- Join with `", "`, as Python's list repr does. -/
def commaJoin : List (List Char) → List Char
  | [] => []
  | [x] => x
  | x :: y :: rest => x ++ ',' :: ' ' :: commaJoin (y :: rest)

/-- Python `repr` of a value (used by `str` on lists). -/
def pyRepr : Value → List Char
  | .int i => intRepr i
  | .rat q => "Fraction(".toList ++ intRepr q.num ++ ", ".toList ++ natRepr q.den ++ [')']
  | .bool b => if b then "True".toList else "False".toList
  | .nil => "None".toList
  | .str s => '\'' :: s ++ ['\'']
  | .list l => '[' :: commaJoin (l.attach.map fun x => pyRepr x.1) ++ [']']
termination_by v => sizeOf v
decreasing_by
  simp_wf
  have := List.sizeOf_lt_of_mem x.2
  omega

/-- Python `str` of a value (`env.py` line 39: `str(expression[0])`). -/
def pyStr : Value → List Char
  | .str s => s
  | .int i => intRepr i
  | .rat q => ratStr q
  | .bool b => if b then "True".toList else "False".toList
  | .nil => "None".toList
  | .list l => pyRepr (.list l)

/-! Environments

`env.py` — an `Environment` owns `self.variables` (a dict keyed by Python
values, in practice strings) and `self.functions`.  Every `Environment` the
interpreter creates shares the one `functions` dict of the top-level
environment (`local_env.functions = self.functions` in `defun`), so the
function table lives once in the global state; the per-object `variables`
dicts form a heap indexed by `Nat` (index 0 = the top-level environment).
Dict entries are kept in insertion order, with lookup/update by Python
equality of keys, like a Python dict without hash collisions. -/

/-- A Python dict keyed and valued by interpreter values. -/
abbrev Dict := List (Value × Value)

/-- Python dict lookup (`d[k]` / `k in d`). -/
def dictGet (d : Dict) (k : Value) : Option Value :=
  (d.find? fun p => pyEq p.1 k).map (fun p => p.2)

/-- Python dict update `d[k] = v`: replace the entry with an equal key, or
append a new entry. -/
def dictSet (d : Dict) (k v : Value) : Dict :=
  if d.any (fun p => pyEq p.1 k) then
    d.map (fun p => if pyEq p.1 k then (p.1, v) else p)
  else d ++ [(k, v)]

/-- The builtin operations registered in `Environment.__init__`'s
function table (one per method of `env.py`). -/
inductive Builtin where
  | add | subtract | multiply | divide
  | greater_than | less_than | equals | not_equal
  | and_operator | or_operator | not_operator
  | car | cdr | cons | sqrt | power
  | define | if_cond | set | defun | mapcar
deriving DecidableEq

/-- An entry of the `functions` dict: either a builtin bound method (whose
`self` is the environment that built the table — carried as `selfEnv`), or
a `user_function` closure created by `defun` (which captures `defun`'s own
`self` as `defEnv`, plus the raw parameter list and body). -/
inductive Func where
  | builtin (b : Builtin) (selfEnv : Nat)
  | user (params : List Value) (body : Value) (defEnv : Nat)

/-- The global interpreter state: the heap of `variables` dicts of all
environment objects ever created, and the shared `functions` dict. -/
structure PState where
  envs : List Dict
  funcs : List (List Char × Func)

/-- Lookup in the `functions` dict (keys are plain Python strings). -/
def lookupFunc (fs : List (List Char × Func)) (k : List Char) : Option Func :=
  (fs.find? fun p => p.1 == k).map (fun p => p.2)

/-- Update of the `functions` dict (`self.functions[name] = ...`). -/
def setFunc (fs : List (List Char × Func)) (k : List Char) (v : Func) :
    List (List Char × Func) :=
  if fs.any (fun p => p.1 == k) then
    fs.map (fun p => if p.1 == k then (k, v) else p)
  else fs ++ [(k, v)]

/-! Builtin operations (`env.py` lines 109-229)

The pure ones are plain functions from the evaluated argument list; a
Python call with the wrong number of arguments raises `TypeError`. -/

/-- Models `check_32bit` (`env.py` 110-115): range-check a numeric result against
the closed interval `[-2147483648, 2147483647]`.  `q < m` for a rational
`q` and integer `m` is expressed as `q.num < m * q.den` to stay within
integer arithmetic. -/
def check_32bit (value : Value) : Except Err Value :=
  match toRat? value with
  | none => .error .typeError
  | some q =>
    if q.num < -2147483648 * (q.den : Int) ∨ 2147483647 * (q.den : Int) < q.num then
      .error .overflowError
    else .ok value

/-- Python `a + b` on numbers (`bool` coerces to `int`; a `Fraction`
operand makes the result a `Fraction`); `none` means `TypeError`. -/
def pyAdd (a b : Value) : Option Value :=
  match a, b with
  | .rat x, _ => (toRat? b).map (fun y => .rat (ratAdd x y))
  | _, .rat y => (toRat? a).map (fun x => .rat (ratAdd x y))
  | _, _ =>
    match intOf? a, intOf? b with
    | some x, some y => some (.int (x + y))
    | _, _ => none

/-- Python `a - b` on numbers. -/
def pySub (a b : Value) : Option Value :=
  match a, b with
  | .rat x, _ => (toRat? b).map (fun y => .rat (ratSub x y))
  | _, .rat y => (toRat? a).map (fun x => .rat (ratSub x y))
  | _, _ =>
    match intOf? a, intOf? b with
    | some x, some y => some (.int (x - y))
    | _, _ => none

/-- Python `a * b` on numbers. -/
def pyMul (a b : Value) : Option Value :=
  match a, b with
  | .rat x, _ => (toRat? b).map (fun y => .rat (ratMul x y))
  | _, .rat y => (toRat? a).map (fun x => .rat (ratMul x y))
  | _, _ =>
    match intOf? a, intOf? b with
    | some x, some y => some (.int (x * y))
    | _, _ => none

/-- Python `sum(args)` (starts from the int `0`). -/
def pySum : Value → List Value → Option Value
  | acc, [] => some acc
  | acc, a :: rest =>
    match pyAdd acc a with
    | none => none
    | some acc' => pySum acc' rest

/-- Models `add` (`env.py` 119-121): variadic sum, range-checked once. -/
def add (args : List Value) : Except Err Value :=
  match pySum (.int 0) args with
  | none => .error .typeError
  | some result => check_32bit result

/-- Models `subtract` (`env.py` 123-125). -/
def subtract : List Value → Except Err Value
  | [a, b] =>
    match pySub a b with
    | none => .error .typeError
    | some result => check_32bit result
  | _ => .error .typeError

/-- The loop of `multiply`: the running product is range-checked after
every step (`env.py` 131: "Check for overflow at each step"). -/
def mulLoop : Value → List Value → Except Err Value
  | result, [] => .ok result
  | result, arg :: rest =>
    match pyMul result arg with
    | none => .error .typeError
    | some result' =>
      match check_32bit result' with
      | .error e => .error e
      | .ok _ => mulLoop result' rest

/-- Models `multiply` (`env.py` 127-132): fold from the int `1`. -/
def multiply (args : List Value) : Except Err Value :=
  mulLoop (.int 1) args

/-- Models `divide` (`env.py` 134-138): `ZeroDivisionError` when `b == 0`,
otherwise the exact `Fraction(a, b)`, range-checked. -/
def divide : List Value → Except Err Value
  | [a, b] =>
    if pyEq b (.int 0) then .error .zeroDivisionError
    else
      match toRat? a, toRat? b with
      | some x, some y => check_32bit (.rat (ratDiv x y))
      | _, _ => .error .typeError
  | _ => .error .typeError

/-- Newton iteration for the integer square root, with explicit fuel.
The iterate strictly decreases until it reaches the floor square root, so
fuel `n` always suffices. -/
def isqrtIter : Nat → Nat → Nat → Nat
  | 0, _, x => x
  | f + 1, n, x =>
    let next := (x + n / x) / 2
    if next < x then isqrtIter f n next else x

/-- Integer (floor) square root. -/
def isqrt (n : Nat) : Nat :=
  if n ≤ 1 then n else isqrtIter n n n

/-- Fueled floor-log2 (each step halves, so fuel `n` suffices). -/
def natLog2F : Nat → Nat → Nat
  | 0, _ => 0
  | f + 1, n => if n ≤ 1 then 0 else natLog2F f (n / 2) + 1

/-- Floor of the base-2 logarithm of a positive natural number. -/
def natLog2 (n : Nat) : Nat := natLog2F n n

/-- Does `2^e * b ≤ a` hold?  (Integer comparison with a signed
exponent.) -/
def le2exp (e : Int) (b a : Nat) : Bool :=
  if 0 ≤ e then b <<< e.toNat ≤ a else b ≤ a <<< (-e).toNat

/-- Floor of the base-2 logarithm of the positive rational `a / b`. -/
def ratFloorLog2 (a b : Nat) : Int :=
  let e0 : Int := (natLog2 a : Int) - (natLog2 b : Int)
  if le2exp e0 b a then e0 else e0 - 1

/-- Round `a * 2^k / b` to the nearest integer, ties to even
(the IEEE-754 default rounding). -/
def roundHalfEven (a b : Nat) (k : Int) : Nat :=
  let A := if 0 ≤ k then a <<< k.toNat else a
  let B := if 0 ≤ k then b else b <<< (-k).toNat
  let n := A / B
  let r := A % B
  if 2 * r < B then n
  else if B < 2 * r then n + 1
  else if n % 2 = 0 then n else n + 1

/-- The dyadic rational `m * 2^e`. -/
def ratScale (m e : Int) : Rat :=
  if 0 ≤ e then Rat.ofInt (m * Int.pow 2 e.toNat)
  else Rat.divInt m (Int.pow 2 (-e).toNat)

/-- Python `float(q)`: the IEEE-754 double nearest to the rational `q`
(round to nearest, ties to even), as an exact rational value; raises
`OverflowError` when the rounded magnitude reaches `2^1024` (CPython's
"int too large to convert to float" / float(Fraction) overflow).  Values
below the normal range are rounded at the fixed subnormal scale
`2^-1074`. -/
def py_float_of_rat (q : Rat) : Except Err Rat :=
  if q.num = 0 then .ok (Rat.ofInt 0)
  else
    let a := q.num.natAbs
    let b := q.den
    let sgn : Int := if q.num < 0 then -1 else 1
    let e := ratFloorLog2 a b
    if e < -1022 then
      .ok (ratScale (sgn * (roundHalfEven a b 1074 : Int)) (-1074))
    else
      let m := roundHalfEven a b (52 - e)
      let me := if m = 2 ^ 53 then ((2 ^ 52 : Nat), e + 1) else (m, e)
      if 1023 < me.2 then .error .overflowError
      else .ok (ratScale (sgn * (me.1 : Int)) (me.2 - 52))

/-- Models `math.sqrt` on a nonnegative finite double `x` (given as the
exact rational it denotes): the square root correctly rounded to the
nearest double, which is what IEEE-754 mandates for `sqrt`.  With
`2^(2e) ≤ x < 2^(2e+2)`, the scaled radicand `y = x * 2^(104-2e)` is an
exact integer and `√y ∈ [2^52, 2^53)`; `√y` is never exactly halfway
between two integers, so rounding to nearest needs no tie handling
beyond the comparison with `n * (n + 1)`. -/
def py_float_sqrt (x : Rat) : Rat :=
  if x.num ≤ 0 then Rat.ofInt 0
  else
    let a := x.num.toNat
    let b := x.den
    let E := ratFloorLog2 a b
    let e := Int.fdiv E 2
    let y := (ratMul x (ratScale 1 (104 - 2 * e))).num.toNat
    let n := isqrt y
    let t := if y ≤ n * (n + 1) then n else n + 1
    let te := if t = 2 ^ 53 then ((2 ^ 52 : Nat), e + 1) else (t, e)
    ratScale (te.1 : Int) (te.2 - 52)

/-- Models `sqrt` (`env.py` 140-144): `ValueError` for a negative
argument, otherwise `int(math.sqrt(a))`, range-checked.  `math.sqrt`
first converts its argument to the nearest IEEE-754 double (which can
itself raise `OverflowError`), then takes the correctly rounded float
square root; `int` truncates toward zero, which on this nonnegative
value is the floor. -/
def sqrt : List Value → Except Err Value
  | [a] =>
    match toRat? a with
    | none => .error .typeError
    | some q =>
      if q.num < 0 then .error .valueError
      else
        match py_float_of_rat q with
        | .error e => .error e
        | .ok x => check_32bit (.int (py_float_sqrt x).floor)
  | _ => .error .typeError

/-- Python `a ** b`.  For a negative integer exponent over an integer base
Python produces a float; that float approximates the exact rational used
here (floats are outside this embedding's scope), and `0 ** negative`
raises `ZeroDivisionError`.  Non-integer exponents produce floats/complex
numbers in Python and are modelled as a `TypeError`. -/
def pyPow (a b : Value) : Except Err Value :=
  match intOf? b with
  | some e =>
    match intOf? a with
    | some m =>
      if 0 ≤ e then .ok (.int (Int.pow m e.toNat))
      else if m = 0 then .error .zeroDivisionError
      else .ok (.rat (ratDiv (Rat.ofInt 1) (ratNPow (Rat.ofInt m) (-e).toNat)))
    | none =>
      match a with
      | .rat q =>
        if 0 ≤ e then .ok (.rat (ratNPow q e.toNat))
        else if q.num = 0 then .error .zeroDivisionError
        else .ok (.rat (ratDiv (Rat.ofInt 1) (ratNPow q (-e).toNat)))
      | _ => .error .typeError
  | none => .error .typeError

/-- Models `power` (`env.py` 146-148): `a ** b`, range-checked. -/
def power : List Value → Except Err Value
  | [a, b] =>
    match pyPow a b with
    | .error e => .error e
    | .ok result => check_32bit result
  | _ => .error .typeError

/-- Models `greater_than` (`env.py` 152-153): Python `a > b` (= `b < a`). -/
def greater_than : List Value → Except Err Value
  | [a, b] => (pyLt b a).map .bool
  | _ => .error .typeError

/-- Models `less_than` (`env.py` 155-156). -/
def less_than : List Value → Except Err Value
  | [a, b] => (pyLt a b).map .bool
  | _ => .error .typeError

/-- Models `equals` (`env.py` 158-159). -/
def equals : List Value → Except Err Value
  | [a, b] => .ok (.bool (pyEq a b))
  | _ => .error .typeError

/-- Models `not_equal` (`env.py` 161-162). -/
def not_equal : List Value → Except Err Value
  | [a, b] => .ok (.bool (!pyEq a b))
  | _ => .error .typeError

/-- Models `and_operator` (`env.py` 166-167): Python `a and b` returns `a` when
`a` is falsy, else `b`. -/
def and_operator : List Value → Except Err Value
  | [a, b] => .ok (if pyTruthy a then b else a)
  | _ => .error .typeError

/-- Models `or_operator` (`env.py` 169-170). -/
def or_operator : List Value → Except Err Value
  | [a, b] => .ok (if pyTruthy a then a else b)
  | _ => .error .typeError

/-- Models `not_operator` (`env.py` 172-173). -/
def not_operator : List Value → Except Err Value
  | [a] => .ok (.bool (!pyTruthy a))
  | _ => .error .typeError

/-- Models `car` (`env.py` 177-183): head of a list, `None` for the empty list,
and a non-list argument is returned unchanged. -/
def car : List Value → Except Err Value
  | [a] =>
    match a with
    | .list [] => .ok .nil
    | .list (x :: _) => .ok x
    | _ => .ok a
  | _ => .error .typeError

/-- Models `cdr` (`env.py` 185-191): tail of a list, `None` for the empty list,
`SyntaxError` for a non-list. -/
def cdr : List Value → Except Err Value
  | [a] =>
    match a with
    | .list [] => .ok .nil
    | .list (_ :: t) => .ok (.list t)
    | _ => .error .syntaxError
  | _ => .error .typeError

/-- Models `cons` (`env.py` 193-205): empty-list arguments are normalized to
`None`; `(None, None)` collapses to `None`; a list second argument is
prepended to; otherwise a dotted pair `[a, '.', b]`. -/
def cons : List Value → Except Err Value
  | [a, b] =>
    let a := if pyEq a (.list []) then .nil else a
    let b := if pyEq b (.list []) then .nil else b
    match a, b with
    | .nil, .nil => .ok .nil
    | _, _ =>
      match b with
      | .list bs => .ok (.list (a :: bs))
      | _ => .ok (.list [a, .str ['.'], b])
  | _ => .error .typeError

/-- Models `if_cond` (`env.py` 215-219): a value-level selector — returns the
(already evaluated) consequent exactly when the (already evaluated)
condition `is True`, else the (already evaluated) alternative. -/
def if_cond (condition conseq alt : Value) : Value :=
  match condition with
  | .bool true => conseq
  | _ => alt

/-- Models `define` (`env.py` 209-213): bind/overwrite unconditionally in the
variables of the bound `self` environment; the name must be a string. -/
def define (selfEnv : Nat) (st : PState) (var_name value : Value) :
    Except Err Value × PState :=
  match var_name with
  | .str _ =>
    let vars := st.envs.getD selfEnv []
    (.ok var_name, { st with envs := st.envs.set selfEnv (dictSet vars var_name value) })
  | _ => (.error .typeError, st)

/-- Models `set` (`env.py` 221-229): the name must be a string (`SyntaxError`)
and already bound (`NameError`); then overwrite and return the name. -/
def set (selfEnv : Nat) (st : PState) (var_name value : Value) :
    Except Err Value × PState :=
  match var_name with
  | .str _ =>
    let vars := st.envs.getD selfEnv []
    if (dictGet vars var_name).isNone then (.error .nameError, st)
    else (.ok var_name, { st with envs := st.envs.set selfEnv (dictSet vars var_name value) })
  | _ => (.error .syntaxError, st)

/-- Models `defun` (`env.py` 231-260): the name must be a string and the
parameters a list (`SyntaxError` otherwise); registers a `user_function`
closure in the shared function table.  The closure captures `defun`'s own
`self` (the environment the bound method belongs to) as `defEnv`. -/
def defun (selfEnv : Nat) (st : PState) (name params body : Value) :
    Except Err Value × PState :=
  match name with
  | .str s =>
    match params with
    | .list pl =>
      (.ok name, { st with funcs := setFunc st.funcs s (.user pl body selfEnv) })
    | _ => (.error .syntaxError, st)
  | _ => (.error .syntaxError, st)

/-- The parameter-binding loop of `user_function` (`env.py` 252-253):
`zip` truncates at the shorter list; binding an (unhashable) list key
raises `TypeError`. -/
def bind_params : Dict → List Value → List Value → Except Err Dict
  | d, [], _ => .ok d
  | d, _ :: _, [] => .ok d
  | d, p :: ps, a :: rest =>
    match p with
    | .list _ => .error .typeError
    | _ => bind_params (dictSet d p a) ps rest

/-- Is the value a Python list? (`isinstance(x, list)`) -/
def isVList : Value → Bool
  | .list _ => true
  | _ => false

/-- Extract the element list of a list value. -/
def toVList : Value → List Value
  | .list l => l
  | _ => []

/-- Python `zip(*lists)`: the positional tuples up to the shortest list
(empty when there are no lists at all). -/
def zipN (ls : List (List Value)) : List (List Value) :=
  match (ls.map List.length).min? with
  | none => []
  | some n => (List.range n).map fun i => ls.map fun l => l.getD i .nil

/-! The evaluator (`env.py` lines 37-107, 241-256, 263-266)

All five mutually recursive routines consume one unit of fuel per call,
which keeps the recursion structural; `.error .outOfFuel` is only ever
produced when the fuel runs out, never by the Python code. -/

mutual

/-- Models `evaluate_expression` (`env.py` 37-63), evaluating in the environment
object `env` of the heap.  An empty list raises the untyped `IndexError`
of `expression[0]`. -/
def evaluate_expression : Nat → Nat → PState → Value → Except Err Value × PState
  | 0, _, st, _ => (.error .outOfFuel, st)
  | f + 1, env, st, expression =>
    match expression with
    | .list es =>
      match es with
      | [] => (.error .indexError, st)
      | h :: t =>
        let element := pyStr h
        match dictGet (st.envs.getD env []) (.str element) with
        | some v => (.ok v, st)
        | none =>
          if element = "quote".toList then
            match t with
            | [x] => (.ok x, st)
            | _ => (.error .syntaxError, st)
          else
            match h with
            | .str _ => evaluate_function_call f env st es
            | _ => (.error .syntaxError, st)
    | _ =>
      match dictGet (st.envs.getD env []) expression with
      | some v => (.ok v, st)
      | none => (.ok expression, st)

/-- Models `evaluate_function_call` (`env.py` 70-107).  The `set!` special case
calls the method `self.set` of the *evaluating* environment; the `defun`
special case applies the current `functions['defun']` entry to the raw
operands; the `mapcar` special case evaluates the function and list
operands, type-checks the lists, and calls the method `self.mapcar`;
every other operator has its operands evaluated left-to-right and the
(re-looked-up) function entry applied to the results. -/
def evaluate_function_call : Nat → Nat → PState → List Value → Except Err Value × PState
  | 0, _, st, _ => (.error .outOfFuel, st)
  | f + 1, env, st, expression =>
    match expression with
    | [] => (.error .indexError, st)
    | operator :: operands =>
      let opName := match operator with | .str s => s | _ => []
      if (lookupFunc st.funcs opName).isNone then (.error .nameError, st)
      else if opName = "set!".toList then
        match operands with
        | [nm, vexpr] =>
          match evaluate_expression f env st vexpr with
          | (.ok v, st1) => set env st1 nm v
          | (.error e, st1) => (.error e, st1)
        | _ => (.error .syntaxError, st)
      else if opName = "defun".toList then
        match lookupFunc st.funcs opName with
        | some fn => apply_function f st fn operands
        | none => (.error .keyError, st)
      else if opName = "mapcar".toList then
        match operands with
        | fexpr :: lexprs =>
          if lexprs.isEmpty then (.error .syntaxError, st)
          else
            match evaluate_expression f env st fexpr with
            | (.error e, st1) => (.error e, st1)
            | (.ok func, st1) =>
              match evaluate_operands f env st1 lexprs with
              | (.error e, st2) => (.error e, st2)
              | (.ok lists, st2) =>
                if lists.all isVList then
                  apply_function f st2 (.builtin .mapcar env) (func :: lists)
                else (.error .typeError, st2)
        | [] => (.error .syntaxError, st)
      else
        match evaluate_operands f env st operands with
        | (.error e, st1) => (.error e, st1)
        | (.ok vals, st1) =>
          match lookupFunc st1.funcs opName with
          | some fn => apply_function f st1 fn vals
          | none => (.error .keyError, st1)

/-- The operand-evaluation comprehension (`env.py` 104), threading the
state left-to-right and propagating the first exception. -/
def evaluate_operands : Nat → Nat → PState → List Value → Except Err (List Value) × PState
  | 0, _, st, _ => (.error .outOfFuel, st)
  | f + 1, env, st, ops =>
    match ops with
    | [] => (.ok [], st)
    | o :: rest =>
      match evaluate_expression f env st o with
      | (.error e, st1) => (.error e, st1)
      | (.ok v, st1) =>
        match evaluate_operands f env st1 rest with
        | (.error e, st2) => (.error e, st2)
        | (.ok vs, st2) => (.ok (v :: vs), st2)

/-- Application of a function-table entry to already-evaluated arguments
(a Python call of the stored callable).  A builtin with the wrong number
of arguments raises `TypeError`.  A `user_function` (`env.py` 241-256)
checks the arity, copies the variables of its captured `defEnv`
environment at call time, overlays the parameter bindings, and evaluates
the stored body in that fresh environment (appended to the heap). -/
def apply_function : Nat → PState → Func → List Value → Except Err Value × PState
  | 0, st, _, _ => (.error .outOfFuel, st)
  | f + 1, st, fn, args =>
    match fn with
    | .builtin b selfEnv =>
      match b with
      | .define =>
        match args with
        | [nm, v] => define selfEnv st nm v
        | _ => (.error .typeError, st)
      | .set =>
        match args with
        | [nm, v] => set selfEnv st nm v
        | _ => (.error .typeError, st)
      | .defun =>
        match args with
        | [nm, ps, bd] => defun selfEnv st nm ps bd
        | _ => (.error .typeError, st)
      | .if_cond =>
        match args with
        | [c, conseq, alt] => (.ok (if_cond c conseq alt), st)
        | _ => (.error .typeError, st)
      | .mapcar =>
        match args with
        | func :: lists =>
          if lists.all isVList then
            match mapcar_loop f st func (zipN (lists.map toVList)) with
            | (.ok vs, st1) => (.ok (.list vs), st1)
            | (.error e, st1) => (.error e, st1)
          else (.error .typeError, st)
        | [] => (.error .typeError, st)
      | .add => (add args, st)
      | .subtract => (subtract args, st)
      | .multiply => (multiply args, st)
      | .divide => (divide args, st)
      | .greater_than => (greater_than args, st)
      | .less_than => (less_than args, st)
      | .equals => (equals args, st)
      | .not_equal => (not_equal args, st)
      | .and_operator => (and_operator args, st)
      | .or_operator => (or_operator args, st)
      | .not_operator => (not_operator args, st)
      | .car => (car args, st)
      | .cdr => (cdr args, st)
      | .cons => (cons args, st)
      | .sqrt => (sqrt args, st)
      | .power => (power args, st)
    | .user params body defEnv =>
      if args.length = params.length then
        match bind_params (st.envs.getD defEnv []) params args with
        | .error e => (.error e, st)
        | .ok newVars =>
          evaluate_expression f st.envs.length
            { st with envs := st.envs ++ [newVars] } body
      else (.error .typeError, st)

/-- The application loop of `mapcar` (`env.py` 266): for each positional
tuple, look up `self.functions[func]` (`KeyError` when the key is absent,
`TypeError` when it is an unhashable list) and apply it. -/
def mapcar_loop : Nat → PState → Value → List (List Value) → Except Err (List Value) × PState
  | 0, st, _, _ => (.error .outOfFuel, st)
  | f + 1, st, func, tuples =>
    match tuples with
    | [] => (.ok [], st)
    | tup :: rest =>
      match func with
      | .list _ => (.error .typeError, st)
      | .str s =>
        match lookupFunc st.funcs s with
        | none => (.error .keyError, st)
        | some fn =>
          match apply_function f st fn tup with
          | (.error e, st1) => (.error e, st1)
          | (.ok v, st1) =>
            match mapcar_loop f st1 func rest with
            | (.error e, st2) => (.error e, st2)
            | (.ok vs, st2) => (.ok (v :: vs), st2)
      | _ => (.error .keyError, st)

end

/-- The function table built in `Environment.__init__` (`env.py` 10-32);
every entry is a method bound to the constructing environment (index 0
for the interpreter's single top-level environment). -/
def initFuncs : List (List Char × Func) :=
  [("+".toList, .builtin .add 0),
   ("-".toList, .builtin .subtract 0),
   ("*".toList, .builtin .multiply 0),
   ("/".toList, .builtin .divide 0),
   (">".toList, .builtin .greater_than 0),
   ("<".toList, .builtin .less_than 0),
   ("=".toList, .builtin .equals 0),
   ("!=".toList, .builtin .not_equal 0),
   ("and".toList, .builtin .and_operator 0),
   ("or".toList, .builtin .or_operator 0),
   ("not".toList, .builtin .not_operator 0),
   ("car".toList, .builtin .car 0),
   ("cdr".toList, .builtin .cdr 0),
   ("cons".toList, .builtin .cons 0),
   ("sqrt".toList, .builtin .sqrt 0),
   ("pow".toList, .builtin .power 0),
   ("define".toList, .builtin .define 0),
   ("if".toList, .builtin .if_cond 0),
   ("set!".toList, .builtin .set 0),
   ("defun".toList, .builtin .defun 0),
   ("mapcar".toList, .builtin .mapcar 0)]

/-- The variable table built in `Environment.__init__` (`env.py` 6-9). -/
def initVars : Dict :=
  [(.str "T".toList, .bool true), (.str "NIL".toList, .nil)]

/-- The state right after constructing the top-level `Environment`. -/
def initState : PState := ⟨[initVars], initFuncs⟩

/-! The parser (`parser.py`)

Strings are handled as `List Char`.  As in the evaluator, the mutually
recursive `parse_expression`/`parse_list` consume one unit of fuel per
call. -/

/-- A token character: anything but whitespace and parentheses
(the regex `[^\s()]+`). -/
def isTokChar (c : Char) : Bool := !c.isWhitespace && c ≠ '(' && c ≠ ')'

/-- Python `str.strip()`: drop whitespace from both ends. -/
def strip (cs : List Char) : List Char :=
  ((cs.dropWhile Char.isWhitespace).reverse.dropWhile Char.isWhitespace).reverse

/-- Flush the accumulated token run of the tokenizer. -/
def flushAcc (acc : List Char) : List (List Char) :=
  if acc.isEmpty then [] else [acc]

/-- Worker of `tokenize`: scan characters, emitting single-character
parenthesis tokens and maximal runs of token characters, skipping
whitespace. -/
def tokenizeAux : List Char → List Char → List (List Char)
  | [], acc => flushAcc acc
  | c :: rest, acc =>
    if c = '(' ∨ c = ')' then flushAcc acc ++ [c] :: tokenizeAux rest []
    else if c.isWhitespace then flushAcc acc ++ tokenizeAux rest []
    else tokenizeAux rest (acc ++ [c])

/-- Models `tokenize` (`parser.py` 72-73): `re.findall` of `\(|\)|[^\s()]+`. -/
def tokenize (tokens_str : List Char) : List (List Char) :=
  tokenizeAux tokens_str []

/-- Python `str.isdigit()` (restricted to ASCII digits): non-empty and
all digits. -/
def pyIsdigit (cs : List Char) : Bool :=
  !cs.isEmpty && cs.all Char.isDigit

/-- Models `is_number` (`parser.py` 24-26):
`expression[0] == '-' and expression[1:].isdigit() or expression.isdigit()`.
Indexing `expression[0]` of an empty string raises the untyped
`IndexError`. -/
def is_number : List Char → Except Err Bool
  | [] => .error .indexError
  | c :: rest => .ok ((c = '-' && pyIsdigit rest) || pyIsdigit (c :: rest))

/-- Models `is_list` (`parser.py` 28-30): starts with `(` and ends with `)`. -/
def is_list (cs : List Char) : Bool :=
  cs.head? == some '(' && cs.getLast? == some ')'

/-- Value of a digit string. -/
def digitsToNat (cs : List Char) : Nat :=
  cs.foldl (fun n c => 10 * n + (c.toNat - '0'.toNat)) 0

/-- Python `int(s)` on a string accepted by `is_number`. -/
def strToInt : List Char → Int
  | '-' :: rest => -(digitsToNat rest : Int)
  | cs => (digitsToNat cs : Int)

/-- Models `extract_sublist` (`parser.py` 76-88): split the token stream at the
parenthesis matching an already-consumed `(`; returns the inner run and
the remaining stream, or `SyntaxError` ("Unmatched opening parenthesis")
when the stream runs out. -/
def extract_sublist_aux : List (List Char) → Nat → List (List Char) →
    Except Err (List (List Char) × List (List Char))
  | [], _, _ => .error .syntaxError
  | t :: rest, depth, acc =>
    if t = ['('] then extract_sublist_aux rest (depth + 1) (acc ++ [t])
    else if t = [')'] then
      if depth = 1 then .ok (acc, rest)
      else extract_sublist_aux rest (depth - 1) (acc ++ [t])
    else extract_sublist_aux rest depth (acc ++ [t])

/-- Models `extract_sublist` starting at depth 1. -/
def extract_sublist (tokens : List (List Char)) :
    Except Err (List (List Char) × List (List Char)) :=
  extract_sublist_aux tokens 1 []

/-- The constant token `quote`. -/
def quoteTok : List Char := "quote".toList

mutual

/-- Models `parse_expression` (`parser.py` 5-22): strip; a leading `'` wraps the
parsed remainder in `(quote _)`; a number becomes an integer atom; a
parenthesized text is tokenized and list-parsed without the outer
parenthesis tokens; anything else is a symbol. -/
def parse_expression : Nat → List Char → Except Err Value
  | 0, _ => .error .outOfFuel
  | f + 1, expression =>
    let expression := strip expression
    match expression with
    | '\'' :: rest =>
      match parse_expression f (strip rest) with
      | .error e => .error e
      | .ok q => .ok (.list [.str quoteTok, q])
    | _ =>
      match is_number expression with
      | .error e => .error e
      | .ok true => .ok (.int (strToInt expression))
      | .ok false =>
        if is_list expression then
          match parse_list f ((tokenize expression).drop 1).dropLast with
          | .error e => .error e
          | .ok l => .ok (.list l)
        else .ok (.str expression)

/-- Models `parse_list` (`parser.py` 33-51) together with the inlined
`handle_quotation` (`parser.py` 53-69): consume the token stream
left-to-right; `(` opens a nested sublist; a bare `)` is a
`SyntaxError` ("Unexpected closing parenthesis"); a bare `'` quotes the
next token or balanced sublist; any other token goes through
`parse_expression`. -/
def parse_list : Nat → List (List Char) → Except Err (List Value)
  | 0, _ => .error .outOfFuel
  | f + 1, tokens =>
    match tokens with
    | [] => .ok []
    | token :: rest =>
      if token = ['('] then
        match extract_sublist rest with
        | .error e => .error e
        | .ok (sub, rest') =>
          match parse_list f sub with
          | .error e => .error e
          | .ok subList =>
            match parse_list f rest' with
            | .error e => .error e
            | .ok more => .ok (.list subList :: more)
      else if token = [')'] then .error .syntaxError
      else if token = ['\''] then
        -- handle_quotation
        match rest with
        | [] => .error .syntaxError
        | next :: rest2 =>
          if next = ['('] then
            match extract_sublist rest2 with
            | .error e => .error e
            | .ok (sub, rest') =>
              match parse_list f sub with
              | .error e => .error e
              | .ok subList =>
                match parse_list f rest' with
                | .error e => .error e
                | .ok more => .ok (.list [.str quoteTok, .list subList] :: more)
          else
            match parse_expression f next with
            | .error e => .error e
            | .ok q =>
              match parse_list f rest2 with
              | .error e => .error e
              | .ok more => .ok (.list [.str quoteTok, q] :: more)
      else
        match parse_expression f token with
        | .error e => .error e
        | .ok v =>
          match parse_list f rest with
          | .error e => .error e
          | .ok more => .ok (v :: more)

end

/-! Notation helpers for the statements below -/

/-- A symbol value. -/
def sym (s : String) : Value := .str s.toList

/-- Is the value a Python string? (`isinstance(x, str)`) -/
def isStr : Value → Bool
  | .str _ => true
  | _ => false

/-- Membership of an integer in the closed 32-bit range
`[-2147483648, 2147483647]`. -/
def int_in_range (n : Int) : Bool :=
  -2147483648 ≤ n && n ≤ 2147483647

/-- Membership of a rational in the closed 32-bit range, by cross
multiplication with the (positive) denominator. -/
def rat_in_range (q : Rat) : Bool :=
  -2147483648 * (q.den : Int) ≤ q.num && q.num ≤ 2147483647 * (q.den : Int)

/-! Claim theorems -/

/-- Claim C1, counterexample.  The claim says `evaluate` returns nil on the
empty list `()` and does not fail; in fact evaluating the empty list
raises the untyped `IndexError` of `expression[0]` (`env.py` 39) in the
fresh environment. -/
theorem C1_counterexample :
    evaluate_expression 1 0 initState (.list []) = (.error .indexError, initState) := rfl

/-- Claim C1, amended.  For every List expression with zero elements,
`evaluate_expression` raises the untyped out-of-range `IndexError` of
`expression[0]` — in any environment, any state and with any fuel.  (The
"`()` is nil, not a function call" policy lives in the REPL layer of
`interpreter.py`, which never passes `()` to `evaluate`.) -/
theorem C1_empty_list_raises_index_error (f env : Nat) (st : PState) :
    evaluate_expression (f + 1) env st (.list []) = (.error .indexError, st) := rfl

/-- Claim C4.  For every List expression whose head, read as text
(`str(expression[0])`), is bound as a variable in the evaluating
environment, `evaluate_expression` returns that variable's current value
with the state untouched — before quote handling and before any function
dispatch, so such a list is never treated as a call. -/
theorem C4_head_variable_priority (f env : Nat) (st : PState) (h : Value)
    (t : List Value) (v : Value)
    (hv : dictGet (st.envs.getD env []) (.str (pyStr h)) = some v) :
    evaluate_expression (f + 1) env st (.list (h :: t)) = (.ok v, st) := by
  simp only [List.getD_eq_getElem?_getD] at hv
  simp [evaluate_expression, hv]

/-- Claim C4, witness.  `(T 1 2)` evaluates to the value of the variable
`T`, not to a call: the head `quote`-check and function dispatch are both
skipped. -/
theorem C4_head_variable_priority_witness :
    evaluate_expression 1 0 initState (.list [sym "T", .int 1, .int 2])
      = (.ok (.bool true), initState) :=
  C4_head_variable_priority 0 0 initState (sym "T") [.int 1, .int 2] (.bool true) rfl

/-- Claim C9, counterexample.  The claim says a call whose head is not a
symbol at all (here: the integer atom `5`) fails with Unknown-Function
(`NameError`); in fact `env.py` 52-53 raises a `SyntaxError`
("Invalid function call") for every non-string head. -/
theorem C9_counterexample :
    evaluate_expression 2 0 initState (.list [.int 5]) = (.error .syntaxError, initState)
      ∧ Err.syntaxError ≠ Err.nameError :=
  ⟨rfl, by decide⟩

/-- Claim C9, amended.  For a List expression whose head is neither a bound
variable (as text) nor the symbol `quote`: a *string* head that is absent
from the function table fails with Unknown-Function (`NameError`), while
a head that is not a string at all (e.g. an integer atom or a nested
list) fails with Malformed-Syntax (`SyntaxError`, "Invalid function
call") instead. -/
theorem C9_unknown_head_dispatch (f env : Nat) (st : PState) :
    (∀ (s : List Char) (ops : List Value),
        dictGet (st.envs.getD env []) (.str s) = none →
        s ≠ quoteTok →
        lookupFunc st.funcs s = none →
        evaluate_expression (f + 2) env st (.list (.str s :: ops)) = (.error .nameError, st))
    ∧ (∀ (h : Value) (ops : List Value),
        isStr h = false →
        dictGet (st.envs.getD env []) (.str (pyStr h)) = none →
        pyStr h ≠ quoteTok →
        evaluate_expression (f + 1) env st (.list (h :: ops)) = (.error .syntaxError, st)) := by
  constructor
  · intro s ops hv hq hl
    simp only [List.getD_eq_getElem?_getD] at hv
    rw [show quoteTok = ['q', 'u', 'o', 't', 'e'] from rfl] at hq
    simp [evaluate_expression, evaluate_function_call, pyStr, hv, hq, hl]
  · intro h ops hstr hv hq
    simp only [List.getD_eq_getElem?_getD] at hv
    rw [show quoteTok = ['q', 'u', 'o', 't', 'e'] from rfl] at hq
    cases h <;> simp_all [evaluate_expression, isStr]

/-- Claim C9, witness.  `(nosuch)` fails with `NameError` while `(5)` fails
with `SyntaxError`, in the fresh environment. -/
theorem C9_unknown_head_dispatch_witness :
    evaluate_expression 2 0 initState (.list [sym "nosuch"]) = (.error .nameError, initState)
      ∧ evaluate_expression 1 0 initState (.list [.int 5, .int 6]) = (.error .syntaxError, initState) :=
  ⟨(C9_unknown_head_dispatch 0 0 initState).1 "nosuch".toList [] rfl (by decide) rfl,
   (C9_unknown_head_dispatch 0 0 initState).2 (.int 5) [.int 6] rfl rfl (by decide)⟩

/-- Unfolding of the operand-evaluation loop on the empty list. -/
theorem evaluate_operands_nil (f env : Nat) (st : PState) :
    evaluate_operands (f + 1) env st [] = (.ok [], st) := rfl

/-- Unfolding of the operand-evaluation loop on a cons cell. -/
theorem evaluate_operands_cons (f env : Nat) (st : PState) (o : Value) (rest : List Value) :
    evaluate_operands (f + 1) env st (o :: rest) =
      match evaluate_expression f env st o with
      | (.error e, st1) => (.error e, st1)
      | (.ok v, st1) =>
        match evaluate_operands f env st1 rest with
        | (.error e, st2) => (.error e, st2)
        | (.ok vs, st2) => (.ok (v :: vs), st2) := rfl

/-- Claim C6.  No rollback inside one `evaluate` call: if the first operand
of a `+` call evaluates successfully (possibly mutating the state, e.g. a
`define`) and the second operand then raises, the whole call raises with
exactly the state left behind by the failed operand — the earlier
operand's mutations stay committed. -/
theorem C6_no_rollback (f : Nat) (d bad vd : Value) (st1 st2 : PState) (err : Err)
    (hd : evaluate_expression (f + 1) 0 initState d = (.ok vd, st1))
    (hbad : evaluate_expression f 0 st1 bad = (.error err, st2)) :
    evaluate_expression (f + 4) 0 initState (.list [sym "+", d, bad]) = (.error err, st2) := by
  have hops : evaluate_operands (f + 2) 0 initState [d, bad] = (.error err, st2) := by
    simp only [evaluate_operands_cons, hd, hbad]
  have hcall : evaluate_expression (f + 4) 0 initState (.list [sym "+", d, bad]) =
      match evaluate_operands (f + 2) 0 initState [d, bad] with
      | (.error e, st') => (.error e, st')
      | (.ok vals, st') =>
        match lookupFunc st'.funcs "+".toList with
        | some fn => apply_function (f + 2) st' fn vals
        | none => (.error .keyError, st') := rfl
  rw [hcall, hops]

/-- Claim C6, witness.  Evaluating `(+ (define a 1) (nosuch))` in a fresh
environment fails with Unknown-Function, yet the state at failure still
has `a` bound to `1`: the `define` was not rolled back. -/
theorem C6_no_rollback_witness :
    evaluate_expression 8 0 initState
        (.list [sym "+", .list [sym "define", sym "a", .int 1], .list [sym "nosuch"]])
      = (.error .nameError,
         ⟨[[(sym "T", .bool true), (sym "NIL", .nil), (sym "a", .int 1)]], initFuncs⟩)
    ∧ dictGet ((⟨[[(sym "T", .bool true), (sym "NIL", .nil), (sym "a", .int 1)]],
          initFuncs⟩ : PState).envs.getD 0 []) (sym "a") = some (.int 1) :=
  ⟨C6_no_rollback 4 (.list [sym "define", sym "a", .int 1]) (.list [sym "nosuch"])
      (sym "a")
      ⟨[[(sym "T", .bool true), (sym "NIL", .nil), (sym "a", .int 1)]], initFuncs⟩
      ⟨[[(sym "T", .bool true), (sym "NIL", .nil), (sym "a", .int 1)]], initFuncs⟩
      .nameError rfl rfl,
   rfl⟩

/-- Claim C3.  For `(if c a b)` with the builtin `if` still reachable
(`if` not shadowed by a variable, present in the function table at entry
and still the builtin at application time): all three operands are
evaluated unconditionally and left-to-right (the final state `s3` carries
the side effects of the condition, the consequent *and* the alternative),
and the call returns the already-evaluated consequent exactly when the
evaluated condition is the true value `True`, else the already-evaluated
alternative. -/
theorem C3_if_evaluates_all_operands (f env : Nat) (st s1 s2 s3 : PState)
    (c a b vc va vb : Value) (se : Nat) (fn0 : Func)
    (hvar : dictGet (st.envs.getD env []) (.str "if".toList) = none)
    (hmem : lookupFunc st.funcs "if".toList = some fn0)
    (hc : evaluate_expression (f + 3) env st c = (.ok vc, s1))
    (ha : evaluate_expression (f + 2) env s1 a = (.ok va, s2))
    (hb : evaluate_expression (f + 1) env s2 b = (.ok vb, s3))
    (hlook : lookupFunc s3.funcs "if".toList = some (.builtin .if_cond se)) :
    evaluate_expression (f + 6) env st (.list [sym "if", c, a, b])
        = (.ok (if_cond vc va vb), s3)
    ∧ if_cond (.bool true) va vb = va
    ∧ (vc ≠ .bool true → if_cond vc va vb = vb) := by
  refine ⟨?_, rfl, ?_⟩
  · have hops : evaluate_operands (f + 4) env st [c, a, b] = (.ok [vc, va, vb], s3) := by
      simp only [evaluate_operands_cons, evaluate_operands_nil, hc, ha, hb]
    rw [show ("if".toList) = ['i', 'f'] from rfl] at hvar hmem hlook
    have h0 : evaluate_expression (f + 6) env st (.list [sym "if", c, a, b])
        = evaluate_function_call (f + 5) env st [sym "if", c, a, b] := by
      simp only [List.getD_eq_getElem?_getD] at hvar
      simp [evaluate_expression, sym, pyStr, hvar]
    have h1 : evaluate_function_call (f + 5) env st [sym "if", c, a, b]
        = match evaluate_operands (f + 4) env st [c, a, b] with
          | (.error e, st') => (.error e, st')
          | (.ok vals, st') =>
            match lookupFunc st'.funcs ['i', 'f'] with
            | some fn => apply_function (f + 4) st' fn vals
            | none => (.error .keyError, st') := by
      simp [evaluate_function_call, sym, hmem]
    rw [h0, h1, hops]
    simp only [hlook]
    rfl
  · intro hne
    cases vc with
    | bool bb => cases bb with
      | true => exact absurd rfl hne
      | false => rfl
    | int i => rfl
    | rat q => rfl
    | nil => rfl
    | str s => rfl
    | list l => rfl

/-- Claim C3, witness.  `(if T (define a 1) (define b 2))` returns the
consequent's value `a`, and the final state shows that the *alternative*
was evaluated too: `b` is bound to `2` afterwards. -/
theorem C3_if_evaluates_all_operands_witness :
    evaluate_expression 12 0 initState
        (.list [sym "if", sym "T",
                .list [sym "define", sym "a", .int 1],
                .list [sym "define", sym "b", .int 2]])
      = (.ok (sym "a"),
         ⟨[[(sym "T", .bool true), (sym "NIL", .nil),
            (sym "a", .int 1), (sym "b", .int 2)]], initFuncs⟩)
    ∧ dictGet ((⟨[[(sym "T", .bool true), (sym "NIL", .nil),
          (sym "a", .int 1), (sym "b", .int 2)]], initFuncs⟩ : PState).envs.getD 0 [])
        (sym "b") = some (.int 2) :=
  ⟨(C3_if_evaluates_all_operands 6 0 initState initState
      ⟨[[(sym "T", .bool true), (sym "NIL", .nil), (sym "a", .int 1)]], initFuncs⟩
      ⟨[[(sym "T", .bool true), (sym "NIL", .nil),
         (sym "a", .int 1), (sym "b", .int 2)]], initFuncs⟩
      (sym "T") (.list [sym "define", sym "a", .int 1])
      (.list [sym "define", sym "b", .int 2])
      (.bool true) (sym "a") (sym "b") 0 (.builtin .if_cond 0)
      rfl rfl rfl rfl rfl rfl).1,
   rfl⟩

/-- Claim C2, counterexample.  The claim says the child environment of a
user-function call is the defining environment's variables *merged with
the caller's current variables*.  After `(defun f (x) y)` and
`(defun g (y) (f 1))`, the call `(g 99)` evaluates `f`'s body `y` while
the *caller* `g`'s frame binds `y` to `99`; since no caller merge happens
(the child copies only the table-owning environment's variables), the
result is the unbound symbol `y`, not `99`. -/
theorem C2_counterexample :
    (let r1 := evaluate_expression 20 0 initState
        (.list [sym "defun", sym "f", .list [sym "x"], sym "y"])
     let r2 := evaluate_expression 20 0 r1.2
        (.list [sym "defun", sym "g", .list [sym "y"], .list [sym "f", .int 1]])
     (evaluate_expression 20 0 r2.2 (.list [sym "g", .int 99])).1)
      = .ok (sym "y")
    ∧ (Except.ok (sym "y") : Except Err Value) ≠ .ok (.int 99) :=
  ⟨rfl, by simp [sym]⟩

/-- Claim C2, amended.  Invoking a user-defined function of `n` parameters
with `n` arguments evaluates the stored body in a fresh child environment
(appended to the heap) whose variable mapping is a full copy, at call
time, of the variables of the environment captured by the `defun` closure
(the environment owning the shared function table — *not* merged with the
caller's variables), overlaid with the positional parameter bindings; the
function mapping is shared (the state keeps the single global table); and
a call whose argument count differs from `n` fails with Arity-Mismatch
(`TypeError`) without touching the state. -/
theorem C2_user_function_call (f : Nat) (st : PState) (params : List Value)
    (body : Value) (defEnv : Nat) (args : List Value) :
    (args.length = params.length →
      apply_function (f + 1) st (.user params body defEnv) args =
        match bind_params (st.envs.getD defEnv []) params args with
        | .error e => (.error e, st)
        | .ok newVars =>
          evaluate_expression f st.envs.length { st with envs := st.envs ++ [newVars] } body)
    ∧ (args.length ≠ params.length →
      apply_function (f + 1) st (.user params body defEnv) args = (.error .typeError, st)) := by
  constructor
  · intro h
    simp [apply_function, h]
  · intro h
    simp [apply_function, h]

/-- Claim C2, witness.  Calling a one-parameter identity function with one
argument binds the parameter in a fresh frame copied from the defining
environment and returns the argument; calling it with two arguments fails
with `TypeError`, state untouched. -/
theorem C2_user_function_call_witness :
    apply_function 6 initState (.user [sym "x"] (sym "x") 0) [.int 7]
        = (.ok (.int 7),
           ⟨[initVars, [(sym "T", .bool true), (sym "NIL", .nil), (sym "x", .int 7)]],
            initFuncs⟩)
    ∧ apply_function 6 initState (.user [sym "x"] (sym "x") 0) [.int 7, .int 8]
        = (.error .typeError, initState) := by
  constructor
  · rw [(C2_user_function_call 5 initState [sym "x"] (sym "x") 0 [.int 7]).1 rfl]
    rfl
  · exact (C2_user_function_call 5 initState [sym "x"] (sym "x") 0 [.int 7, .int 8]).2
      (by decide)

/-- Lemma: `check_32bit` on an integer: accepted exactly inside
`[-2147483648, 2147483647]`. -/
theorem check_32bit_int (n : Int) :
    check_32bit (.int n)
      = if int_in_range n then .ok (.int n) else .error .overflowError := by
  simp only [check_32bit, toRat?, int_in_range]
  have hnum : (Rat.ofInt n).num = n := rfl
  have hden : (Rat.ofInt n).den = 1 := rfl
  rw [hnum, hden]
  by_cases h : (-2147483648 ≤ n ∧ n ≤ 2147483647)
  · rw [if_neg (by push_cast; omega), if_pos (by simp; omega)]
  · rw [if_pos (by push_cast; omega), if_neg (by simp; omega)]

/-- Lemma: `check_32bit` on a rational: accepted exactly inside the 32-bit
range. -/
theorem check_32bit_rat (q : Rat) :
    check_32bit (.rat q)
      = if rat_in_range q then .ok (.rat q) else .error .overflowError := by
  simp only [check_32bit, toRat?, rat_in_range]
  by_cases h : (-2147483648 * ((q.den : Nat) : Int) ≤ q.num
      ∧ q.num ≤ 2147483647 * ((q.den : Nat) : Int))
  · rw [if_neg (by omega), if_pos (by simp; omega)]
  · rw [if_pos (by omega), if_neg (by simp; omega)]

/-- Claim C8.  Evaluating `(/ a b)` on integer atoms fails with
Division-By-Zero exactly when the evaluated divisor `b` is zero;
otherwise it returns the exact rational `Fraction(a, b)` (`ratDiv` of the
two integers — not a floating-point value), subject to the 32-bit range
check. -/
theorem C8_divide_exact_rational (f : Nat) (a b : Int) :
    evaluate_expression (f + 5) 0 initState (.list [sym "/", .int a, .int b])
      = (if b = 0 then (.error .zeroDivisionError, initState)
         else if rat_in_range (ratDiv (Rat.ofInt a) (Rat.ofInt b))
         then (.ok (.rat (ratDiv (Rat.ofInt a) (Rat.ofInt b))), initState)
         else (.error .overflowError, initState)) := by
  have hcall : evaluate_expression (f + 5) 0 initState (.list [sym "/", .int a, .int b])
      = (divide [.int a, .int b], initState) := rfl
  rw [hcall]
  by_cases hb : b = 0
  · subst hb
    rw [if_pos rfl]
    rfl
  · have hpy : pyEq (.int b) (.int 0) = false := by
      simp [pyEq, pyEqF, toRat?, ratEqB, vsize]
      intro hnum
      exact absurd hnum hb
    rw [if_neg hb]
    simp only [divide, hpy, Bool.false_eq_true, if_false, toRat?]
    rw [check_32bit_rat]
    by_cases hr : rat_in_range (ratDiv (Rat.ofInt a) (Rat.ofInt b))
    · rw [if_pos hr, if_pos hr]
    · rw [if_neg hr, if_neg hr]

/-- The per-step range condition of `multiply`'s loop: every running
prefix product must lie in the 32-bit interval. -/
def prefix_products_ok (acc : Int) : List Int → Bool
  | [] => true
  | a :: rest => int_in_range (acc * a) && prefix_products_ok (acc * a) rest

/-- Lemma: `sum` over a list of integers. -/
theorem pySum_int (xs : List Int) (n : Int) :
    pySum (.int n) (xs.map .int) = some (.int (xs.foldl (· + ·) n)) := by
  induction xs generalizing n with
  | nil => rfl
  | cons x rest ih =>
    simp only [List.map_cons, pySum, pyAdd, intOf?, List.foldl_cons]
    exact ih (n + x)

/-- The `multiply` loop on integers: succeeds with the full product when
every intermediate prefix product passes `check_32bit`, and fails with
`OverflowError` as soon as one of them does not. -/
theorem mulLoop_int (xs : List Int) (acc : Int) :
    mulLoop (.int acc) (xs.map .int)
      = if prefix_products_ok acc xs
        then .ok (.int (xs.foldl (· * ·) acc))
        else .error .overflowError := by
  induction xs generalizing acc with
  | nil => rfl
  | cons x rest ih =>
    simp only [List.map_cons, mulLoop, pyMul, intOf?, List.foldl_cons]
    rw [check_32bit_int]
    cases hc : int_in_range (acc * x) with
    | true =>
      rw [if_pos rfl]
      dsimp only
      rw [ih (acc * x)]
      simp [prefix_products_ok, hc]
    | false =>
      rw [if_neg (by simp [hc])]
      simp [prefix_products_ok, hc]

/-- Claim C5, counterexample.  `(* 2147483648 0)` has the in-range result
`0`, yet evaluation fails with Integer-Overflow, because `multiply`
range-checks every intermediate prefix product (`env.py` 131) — here the
running product `2147483648` after the first argument.  This refutes the
claim's "an arithmetic call whose result lies inside the interval does
not fail with Integer-Overflow". -/
theorem C5_counterexample :
    evaluate_expression 9 0 initState (.list [sym "*", .int 2147483648, .int 0])
      = (.error .overflowError, initState)
    ∧ (2147483648 * 0 : Int) = 0
    ∧ int_in_range 0 = true :=
  ⟨rfl, by decide, rfl⟩

/-- Claim C5, amended.  For the arithmetic builtins on integer arguments:
`+`, `-`, `/` and `pow` range-check their final result against
`[-2147483648, 2147483647]` and fail with Integer-Overflow
(`OverflowError`) exactly when it falls outside; `sqrt` converts its
argument to the nearest IEEE-754 double (an operation that can itself
raise `OverflowError` for huge arguments) and range-checks the truncated,
correctly rounded float square root, failing with Integer-Overflow
exactly when that truncated result falls outside; `*` additionally
range-checks every intermediate prefix product, so it fails with
Integer-Overflow exactly when some prefix product falls outside (even if
the final product is in range); and `(+ 2147483647 1)` fails with
Integer-Overflow. -/
theorem C5_arith_range_checks :
    (∀ xs : List Int,
        add (xs.map .int)
          = if int_in_range (xs.foldl (· + ·) 0)
            then .ok (.int (xs.foldl (· + ·) 0)) else .error .overflowError)
    ∧ (∀ a b : Int,
        subtract [.int a, .int b]
          = if int_in_range (a - b) then .ok (.int (a - b)) else .error .overflowError)
    ∧ (∀ xs : List Int,
        multiply (xs.map .int)
          = if prefix_products_ok 1 xs
            then .ok (.int (xs.foldl (· * ·) 1)) else .error .overflowError)
    ∧ (∀ a b : Int, b ≠ 0 →
        divide [.int a, .int b]
          = if rat_in_range (ratDiv (Rat.ofInt a) (Rat.ofInt b))
            then .ok (.rat (ratDiv (Rat.ofInt a) (Rat.ofInt b)))
            else .error .overflowError)
    ∧ (∀ (a : Int) (x : Rat), 0 ≤ a →
        py_float_of_rat (Rat.ofInt a) = .ok x →
        sqrt [.int a]
          = if int_in_range (py_float_sqrt x).floor
            then .ok (.int (py_float_sqrt x).floor) else .error .overflowError)
    ∧ (∀ a b : Int, 0 ≤ b →
        power [.int a, .int b]
          = if int_in_range (Int.pow a b.toNat)
            then .ok (.int (Int.pow a b.toNat)) else .error .overflowError)
    ∧ evaluate_expression 9 0 initState (.list [sym "+", .int 2147483647, .int 1])
        = (.error .overflowError, initState) := by
  refine ⟨?_, ?_, ?_, ?_, ?_, ?_, rfl⟩
  · intro xs
    simp only [add, pySum_int]
    exact check_32bit_int _
  · intro a b
    simp only [subtract, pySub, intOf?]
    exact check_32bit_int _
  · intro xs
    simp only [multiply]
    have h := mulLoop_int xs 1
    simpa using h
  · intro a b hb
    have hpy : pyEq (.int b) (.int 0) = false := by
      simp [pyEq, pyEqF, toRat?, ratEqB, vsize]
      intro hnum
      exact absurd hnum hb
    simp only [divide, hpy, Bool.false_eq_true, if_false, toRat?]
    exact check_32bit_rat _
  · intro a x ha hx
    simp only [sqrt, toRat?]
    rw [show (Rat.ofInt a).num = a from rfl]
    rw [if_neg (by omega), hx]
    exact check_32bit_int _
  · intro a b hb
    simp only [power, pyPow, intOf?]
    rw [if_pos hb]
    exact check_32bit_int _

/-- Claim C5, witness.  Concrete instances of the hypothesis-bearing
parts: `(/ 1 2)` returns the exact rational one-half; `(sqrt 9)` returns
`3`; `(sqrt 4611686018427387903)` — the argument is `2^62 - 1`, which the
float conversion rounds up to `2^62`, whose float square root is `2^31` —
fails with Integer-Overflow; and `(pow 2 40)` overflows the 32-bit
range. -/
theorem C5_arith_range_checks_witness :
    divide [.int 1, .int 2] = .ok (.rat (ratDiv (Rat.ofInt 1) (Rat.ofInt 2)))
    ∧ sqrt [.int 9] = .ok (.int 3)
    ∧ sqrt [.int 4611686018427387903] = .error .overflowError
    ∧ power [.int 2, .int 40] = .error .overflowError := by
  refine ⟨?_, ?_, ?_, ?_⟩
  · rw [C5_arith_range_checks.2.2.2.1 1 2 (by decide)]
    rfl
  · rw [C5_arith_range_checks.2.2.2.2.1 9 (Rat.ofInt 9) (by decide) rfl]
    rfl
  · rw [C5_arith_range_checks.2.2.2.2.1 4611686018427387903
      (Rat.ofInt 4611686018427387904) (by decide) rfl]
    rfl
  · rw [C5_arith_range_checks.2.2.2.2.2.1 2 40 (by decide)]
    rfl

/-- Lemma: `strip` of an all-whitespace string is empty. -/
theorem strip_of_all_ws (cs : List Char) (h : ∀ c ∈ cs, c.isWhitespace = true) :
    strip cs = [] := by
  have h1 : cs.dropWhile Char.isWhitespace = [] :=
    List.dropWhile_eq_nil_iff.mpr h
  simp [strip, h1]

/-- Lemma: `dropWhile isWhitespace` keeps a string with no whitespace intact. -/
theorem dropWhile_ws_eq_self (cs : List Char) (h : ∀ c ∈ cs, c.isWhitespace = false) :
    cs.dropWhile Char.isWhitespace = cs := by
  cases cs with
  | nil => rfl
  | cons c rest =>
    rw [List.dropWhile_cons, if_neg]
    simp [h c (by simp)]

/-- Lemma: `strip` keeps a string with no whitespace intact. -/
theorem strip_of_no_ws (cs : List Char) (h : ∀ c ∈ cs, c.isWhitespace = false) :
    strip cs = cs := by
  have h2 : ∀ c ∈ cs.reverse, c.isWhitespace = false := by
    intro c hc
    exact h c (List.mem_reverse.mp hc)
  simp [strip, dropWhile_ws_eq_self cs h, dropWhile_ws_eq_self cs.reverse h2]

/-- Claim C10.  Parsing the lone quote marker `'` — and likewise any empty
or whitespace-only input — raises the untyped out-of-range `IndexError`
of `expression[0]` inside `is_number` (`parser.py` 26), not a typed
`SyntaxError` parse error. -/
theorem C10_lone_quote_index_error :
    (∀ (f : Nat) (cs : List Char), (∀ c ∈ cs, c.isWhitespace = true) →
        parse_expression (f + 1) cs = .error .indexError)
    ∧ (∀ f : Nat, parse_expression (f + 2) ['\''] = .error .indexError) := by
  constructor
  · intro f cs h
    have hs : strip cs = [] := strip_of_all_ws cs h
    simp [parse_expression, hs, is_number]
  · intro f
    rfl

/-- Claim C10, witness.  The inputs `" "` and `"'"` both raise `IndexError`. -/
theorem C10_lone_quote_index_error_witness :
    parse_expression 1 [' '] = .error .indexError
    ∧ parse_expression 2 ['\''] = .error .indexError :=
  ⟨C10_lone_quote_index_error.1 0 [' '] (by decide),
   C10_lone_quote_index_error.2 0⟩

/-- Scanning a run of token characters just accumulates them. -/
theorem tokenizeAux_run : ∀ t : List Char, (∀ c ∈ t, isTokChar c = true) →
    ∀ s acc : List Char, tokenizeAux (t ++ s) acc = tokenizeAux s (acc ++ t) := by
  intro t
  induction t with
  | nil =>
    intro _ s acc
    simp
  | cons c t' ih =>
    intro ht s acc
    have hc := ht c (by simp)
    simp only [isTokChar, Bool.and_eq_true, Bool.not_eq_true',
      decide_eq_true_eq] at hc
    have ht' : ∀ x ∈ t', isTokChar x = true := fun x hx => ht x (by simp [hx])
    rw [List.cons_append]
    show tokenizeAux (c :: (t' ++ s)) acc = _
    simp only [tokenizeAux]
    rw [if_neg (not_or.mpr ⟨hc.1.2, hc.2⟩), if_neg (by simp [hc.1.1])]
    rw [ih ht' s (acc ++ [c])]
    simp

/-- Tokenizing `(quote t)` for a single non-empty token `t`. -/
theorem tokenize_quote_wrap (t : List Char) (ht : ∀ c ∈ t, isTokChar c = true)
    (hne : t ≠ []) :
    tokenize (('(' :: 'q' :: 'u' :: 'o' :: 't' :: 'e' :: ' ' :: t) ++ [')'])
      = [['('], quoteTok, t, [')']] := by
  have h0 : tokenize (('(' :: 'q' :: 'u' :: 'o' :: 't' :: 'e' :: ' ' :: t) ++ [')'])
      = [['(']] ++ [quoteTok] ++ tokenizeAux (t ++ [')']) [] := rfl
  rw [h0, tokenizeAux_run t ht [')'] []]
  have h1 : tokenizeAux [')'] t = flushAcc t ++ [[')']] := rfl
  rw [List.nil_append, h1]
  have h2 : flushAcc t = [t] := by
    simp [flushAcc, hne]
  rw [h2]
  rfl

/-- Claim C7, counterexample.  The claim quantifies over *every* text `X`;
for `X = "a b"` the shorthand `'a b` parses the whole remainder as the
single (space-containing) symbol `a b`, while `(quote a b)` parses two
separate operand symbols — the trees differ. -/
theorem C7_counterexample :
    parse_expression 10 "'a b".toList
        = .ok (.list [.str quoteTok, .str ['a', ' ', 'b']])
    ∧ parse_expression 10 "(quote a b)".toList
        = .ok (.list [.str quoteTok, sym "a", sym "b"])
    ∧ parse_expression 10 "'a b".toList ≠ parse_expression 10 "(quote a b)".toList := by
  refine ⟨rfl, rfl, ?_⟩
  intro h
  rw [show parse_expression 10 "'a b".toList
        = .ok (.list [.str quoteTok, .str ['a', ' ', 'b']]) from rfl,
      show parse_expression 10 "(quote a b)".toList
        = .ok (.list [.str quoteTok, sym "a", sym "b"]) from rfl] at h
  simp [sym] at h

/-- Claim C7, amended.  Quotation is resolved at parse time, and for every
*single-token* text `X` (non-empty, no whitespace or parentheses, and not
the bare quote marker itself) the shorthand `'X` and the explicit
`(quote X)` produce identical Expression trees, namely `quote` wrapped
around the parse of `X`; in particular `parse("'(a b)")` and
`parse("(quote (a b))")` both yield `['quote', ['a', 'b']]`.  (For texts
that are not a single expression the equivalence fails — see the
counterexample.) -/
theorem C7_quote_sugar (f : Nat) (t : List Char)
    (hne : t ≠ []) (hq : t ≠ ['\'']) (ht : ∀ c ∈ t, isTokChar c = true) :
    (parse_expression (f + 1) ('\'' :: t)
        = match parse_expression f t with
          | .error e => .error e
          | .ok q => .ok (.list [.str quoteTok, q]))
    ∧ (parse_expression (f + 3) (('(' :: 'q' :: 'u' :: 'o' :: 't' :: 'e' :: ' ' :: t) ++ [')'])
        = match parse_expression f t with
          | .error e => .error e
          | .ok q => .ok (.list [.str quoteTok, q]))
    ∧ parse_expression 10 "'(a b)".toList = parse_expression 10 "(quote (a b))".toList
    ∧ parse_expression 10 "'(a b)".toList
        = .ok (.list [.str quoteTok, .list [sym "a", sym "b"]]) := by
  have hnws : ∀ c ∈ t, c.isWhitespace = false := by
    intro c hc
    have := ht c hc
    simp only [isTokChar, Bool.and_eq_true, Bool.not_eq_true'] at this
    exact this.1.1
  have hstript : strip t = t := strip_of_no_ws t hnws
  refine ⟨?_, ?_, rfl, rfl⟩
  · -- the shorthand 'X
    have h1 : strip ('\'' :: t) = '\'' :: t := by
      refine strip_of_no_ws _ ?_
      intro c hc
      rcases List.mem_cons.mp hc with h | h
      · subst h; rfl
      · exact hnws c h
    simp only [parse_expression, h1, hstript]
  · -- the explicit (quote X)
    have htok := tokenize_quote_wrap t ht hne
    have hstrip : strip (('(' :: 'q' :: 'u' :: 'o' :: 't' :: 'e' :: ' ' :: t) ++ [')'])
        = ('(' :: 'q' :: 'u' :: 'o' :: 't' :: 'e' :: ' ' :: t) ++ [')'] := by
      simp only [strip]
      rw [show List.dropWhile Char.isWhitespace
            (('(' :: 'q' :: 'u' :: 'o' :: 't' :: 'e' :: ' ' :: t) ++ [')'])
          = ('(' :: 'q' :: 'u' :: 'o' :: 't' :: 'e' :: ' ' :: t) ++ [')'] from rfl]
      rw [show (('(' :: 'q' :: 'u' :: 'o' :: 't' :: 'e' :: ' ' :: t) ++ [')']).reverse
          = ')' :: ('(' :: 'q' :: 'u' :: 'o' :: 't' :: 'e' :: ' ' :: t).reverse by
        simp]
      rw [List.dropWhile_cons, if_neg (by decide)]
      simp
    have hlist : is_list (('(' :: 'q' :: 'u' :: 'o' :: 't' :: 'e' :: ' ' :: t) ++ [')'])
        = true := by
      rw [show is_list (('(' :: 'q' :: 'u' :: 'o' :: 't' :: 'e' :: ' ' :: t) ++ [')'])
          = (((('(' :: 'q' :: 'u' :: 'o' :: 't' :: 'e' :: ' ' :: t) ++ [')']).head?
              == some '(')
             && ((('(' :: 'q' :: 'u' :: 'o' :: 't' :: 'e' :: ' ' :: t) ++ [')']).getLast?
              == some ')')) from rfl]
      rw [List.getLast?_concat]
      rfl
    have ht1 : t ≠ ['('] := by
      intro hx
      subst hx
      have := ht '(' (by simp)
      simp [isTokChar] at this
    have ht2 : t ≠ [')'] := by
      intro hx
      subst hx
      have := ht ')' (by simp)
      simp [isTokChar] at this
    simp only [parse_expression, hstrip]
    rw [show is_number (('(' :: 'q' :: 'u' :: 'o' :: 't' :: 'e' :: ' ' :: t) ++ [')'])
        = .ok false from rfl]
    rw [hlist]
    simp only [if_true, htok]
    rw [show ((([['('], quoteTok, t, [')']]).drop 1).dropLast) = [quoteTok, t] from rfl]
    -- parse_list (f + 2) [quoteTok, t]
    simp only [parse_list]
    rw [if_neg (by decide), if_neg (by decide), if_neg (by decide)]
    rw [show parse_expression (f + 1) quoteTok = .ok (.str quoteTok) from rfl]
    dsimp only
    rw [if_neg ht1, if_neg ht2, if_neg hq]
    cases hr : parse_expression f t with
    | error e => rfl
    | ok v =>
      cases f with
      | zero => exact absurd hr (by simp [parse_expression])
      | succ f' => rfl

/-- Claim C7, witness.  `'ab` and `(quote ab)` parse to the same tree
`['quote', 'ab']`. -/
theorem C7_quote_sugar_witness :
    parse_expression 4 ('\'' :: ['a', 'b'])
        = .ok (.list [.str quoteTok, .str ['a', 'b']])
    ∧ parse_expression 6 (('(' :: 'q' :: 'u' :: 'o' :: 't' :: 'e' :: ' ' :: ['a', 'b']) ++ [')'])
        = .ok (.list [.str quoteTok, .str ['a', 'b']]) := by
  have h := C7_quote_sugar 3 ['a', 'b'] (by decide) (by decide) (by decide)
  refine ⟨?_, ?_⟩
  · rw [h.1]
    rfl
  · rw [h.2.1]
    rfl

end LispInterp
